import Mathlib

/-!
Verification of the `facebookmarketing` Python client
(`src/facebookmarketing/client.py`) against its natural-language
specification.

The client module is shallowly embedded below: JSON response bodies become
an inductive `Json` type (objects as association lists, in insertion
order, as produced by `response.json()`), Python exceptions become the
`PyError` sum type, and every client method becomes a pure function that
either returns the HTTP request it would issue (a `Request` value) or the
exception it raises.  A method whose result is `.error e` never reaches
the network-sending step `_request`, since the only success value is the
request description itself.

The helper modules `facebookmarketing.exception`,
`facebookmarketing.decorator` and `facebookmarketing.enumerator` are not
part of the provided source tree; the definitions embedding them are
marked `Modelled from the spec:` and follow the specification text.
-/

/-- A JSON value as decoded by `response.json()`.  Python dicts are
modelled as association lists in insertion order; JSON numbers appearing
in the claims are integers, so `num` carries an `Int`. -/
inductive Json where
  | null : Json
  | bool : Bool → Json
  | num : Int → Json
  | str : String → Json
  | arr : List Json → Json
  | obj : List (String × Json) → Json

mutual

/-- Structural equality on JSON values, mirroring Python `==` on the
corresponding decoded values (values of distinct JSON types compare
unequal). -/
def Json.beq : Json → Json → Bool
  | .null, .null => true
  | .bool a, .bool b => a == b
  | .num a, .num b => a == b
  | .str a, .str b => a == b
  | .arr a, .arr b => Json.beqArr a b
  | .obj a, .obj b => Json.beqObj a b
  | _, _ => false

/-- Elementwise equality of JSON arrays. -/
def Json.beqArr : List Json → List Json → Bool
  | [], [] => true
  | a :: as', b :: bs' => Json.beq a b && Json.beqArr as' bs'
  | _, _ => false

/-- Entrywise equality of JSON objects. -/
def Json.beqObj : List (String × Json) → List (String × Json) → Bool
  | [], [] => true
  | (ka, va) :: as', (kb, vb) :: bs' => ka == kb && Json.beq va vb && Json.beqObj as' bs'
  | _, _ => false

end

instance : BEq Json := ⟨Json.beq⟩

/-- Modelled from the spec: the error kinds of the missing
`facebookmarketing.exception` module (§7 of the spec: the classification
table kinds, the two generic fallbacks, and the precondition kind).  The
classified kinds carry the `message` JSON value the exception was raised
with; the generic kinds carry the formatted detail string. -/
inductive LibError where
  | UnknownError : Json → LibError
  | AppRateLimitError : Json → LibError
  | AppPermissionRequiredError : Json → LibError
  | UserRateLimitError : Json → LibError
  | InvalidParameterError : Json → LibError
  | SessionKeyInvalidError : Json → LibError
  | IncorrectPermissionError : Json → LibError
  | PermissionError : Json → LibError
  | ExtendedPermissionRequiredError : Json → LibError
  | UnexpectedError : String → LibError
  | BaseError : String → LibError
  | AccessTokenRequired : String → LibError

/-- A Python-level exception outcome: either one of the library error
kinds, or an uncategorized built-in exception (`NotImplementedError`,
`AttributeError`, `TypeError`, `KeyError`). -/
inductive PyError where
  | lib : LibError → PyError
  | notImplemented : PyError
  | attributeError : String → PyError
  | typeError : String → PyError
  | keyError : String → PyError

/-- Modelled from the spec: the closed error-code enumeration of the
missing `facebookmarketing.enumerator.ErrorEnum` (§4.1 table; the
member values are the published Facebook error codes, which the spec
requires to be preserved exactly, and the spec fixes `AppRateLimit = 4`
and requires `999999` to be absent). -/
inductive ErrorEnum where
  | UnknownError
  | AppRateLimit
  | AppPermissionRequired
  | UserRateLimit
  | InvalidParameter
  | SessionKeyInvalid
  | IncorrectPermission
  | InvalidOauth20AccessToken
  | ExtendedPermissionRequired
deriving DecidableEq

/-- Modelled from the spec: `ErrorEnum(code)` value lookup; `none` models
the `ValueError` Python raises for a value that is no member. -/
def ErrorEnum.ofCode : Int → Option ErrorEnum
  | 1 => some .UnknownError
  | 4 => some .AppRateLimit
  | 10 => some .AppPermissionRequired
  | 17 => some .UserRateLimit
  | 100 => some .InvalidParameter
  | 102 => some .SessionKeyInvalid
  | 104 => some .IncorrectPermission
  | 190 => some .InvalidOauth20AccessToken
  | 200 => some .ExtendedPermissionRequired
  | _ => none

/-- Modelled from the spec: the missing
`facebookmarketing.enumerator.MethodEnum`, whose members name the HTTP
verbs used by `_request`. -/
inductive MethodEnum where
  | GET
  | POST
  | DELETE
deriving DecidableEq

/-- A query-parameter value: the client sends strings and, for
`from_date`, the number produced by `datetime.timestamp()`. -/
inductive PValue where
  | str : String → PValue
  | num : Int → PValue
deriving DecidableEq

/-- The HTTP request a client method hands to `_request`
(`requests.request(method.value, url, params=params, data=data)`; every
implemented method passes `data=None`, which is therefore omitted). -/
structure Request where
  method : MethodEnum
  url : String
  params : List (String × PValue)

/-- The client state: `__init__(app_id, app_secret, version)` plus the
mutable `access_token` field, which starts as `None`. -/
structure Client where
  app_id : String
  app_secret : String
  version : String
  access_token : Option String

/-- Python `BASE_URL` after `__init__` ran `self.BASE_URL += self.version`. -/
def Client.baseUrl (c : Client) : String :=
  "https://graph.facebook.com/" ++ c.version

/-- Python `set_access_token`: stores the token on the client. -/
def Client.set_access_token (c : Client) (token : String) : Client :=
  { c with access_token := some token }

/-- Python truthiness of an optional string (`None` and `""` are falsy),
as tested by `token if token else self.access_token` and by the
access-token guard. -/
def pyTruthyOptStr : Option String → Bool
  | none => false
  | some s => !(s == "")

/-- Python truthiness of a JSON value (`if error:`): `None`, `False`,
`0`, `""`, `[]` and `{}` are falsy. -/
def pyTruthy : Json → Bool
  | .null => false
  | .bool b => b
  | .num n => !(n == 0)
  | .str s => !(s == "")
  | .arr xs => !xs.isEmpty
  | .obj kvs => !kvs.isEmpty

/-- The UTF-8 encoding of one character (`str.encode(\x27utf-8\x27)`,
per scalar value), as a list of bytes. -/
def utf8EncodeChar (c : Char) : List Nat :=
  let n := c.toNat
  if n < 128 then [n]
  else if n < 2048 then [192 + n / 64, 128 + n % 64]
  else if n < 65536 then [224 + n / 4096, 128 + (n / 64) % 64, 128 + n % 64]
  else [240 + n / 262144, 128 + (n / 4096) % 64, 128 + (n / 64) % 64, 128 + n % 64]

/-- The UTF-8 encoding of a character sequence. -/
def utf8Encode : List Char → List Nat
  | [] => []
  | c :: cs => utf8EncodeChar c ++ utf8Encode cs

/-- Truncation to a 32-bit word. -/
def w32 (n : Nat) : Nat := n % 4294967296

/-- 32-bit right rotation. -/
def rotr32 (n x : Nat) : Nat := w32 ((x >>> n) ||| (x <<< (32 - n)))

/-- SHA-256 round constants. -/
def sha256K : List Nat :=
  [1116352408, 1899447441, 3049323471, 3921009573, 961987163,
   1508970993, 2453635748, 2870763221, 3624381080, 310598401,
   607225278, 1426881987, 1925078388, 2162078206, 2614888103,
   3248222580, 3835390401, 4022224774, 264347078, 604807628,
   770255983, 1249150122, 1555081692, 1996064986, 2554220882,
   2821834349, 2952996808, 3210313671, 3336571891, 3584528711,
   113926993, 338241895, 666307205, 773529912, 1294757372,
   1396182291, 1695183700, 1986661051, 2177026350, 2456956037,
   2730485921, 2820302411, 3259730800, 3345764771, 3516065817,
   3600352804, 4094571909, 275423344, 430227734, 506948616,
   659060556, 883997877, 958139571, 1322822218, 1537002063,
   1747873779, 1955562222, 2024104815, 2227730452, 2361852424,
   2428436474, 2756734187, 3204031479, 3329325298]

/-- SHA-256 initial hash value. -/
def sha256H0 : List Nat :=
  [1779033703, 3144134277, 1013904242, 2773480762, 1359893119,
   2600822924, 528734635, 1541459225]

/-- SHA-256 big sigma 0. -/
def bigSigma0 (x : Nat) : Nat := rotr32 2 x ^^^ rotr32 13 x ^^^ rotr32 22 x

/-- SHA-256 big sigma 1. -/
def bigSigma1 (x : Nat) : Nat := rotr32 6 x ^^^ rotr32 11 x ^^^ rotr32 25 x

/-- SHA-256 small sigma 0. -/
def smallSigma0 (x : Nat) : Nat := rotr32 7 x ^^^ rotr32 18 x ^^^ (x >>> 3)

/-- SHA-256 small sigma 1. -/
def smallSigma1 (x : Nat) : Nat := rotr32 17 x ^^^ rotr32 19 x ^^^ (x >>> 10)

/-- SHA-256 choice function. -/
def sha256Ch (x y z : Nat) : Nat := (x &&& y) ^^^ ((x ^^^ 4294967295) &&& z)

/-- SHA-256 majority function. -/
def sha256Maj (x y z : Nat) : Nat := (x &&& y) ^^^ (x &&& z) ^^^ (y &&& z)

/-- Big-endian 32-bit words from a byte list (length a multiple of 4). -/
def bytesToWords : List Nat → List Nat
  | b0 :: b1 :: b2 :: b3 :: rest => (((b0 * 256 + b1) * 256 + b2) * 256 + b3) :: bytesToWords rest
  | _ => []

/-- The 8-byte big-endian encoding of the message bit length. -/
def lengthBytes64 (n : Nat) : List Nat :=
  [(n >>> 56) % 256, (n >>> 48) % 256, (n >>> 40) % 256, (n >>> 32) % 256,
   (n >>> 24) % 256, (n >>> 16) % 256, (n >>> 8) % 256, n % 256]

/-- SHA-256 padding: append `0x80`, zeros to 56 mod 64, then the 64-bit
big-endian bit length. -/
def sha256Pad (msg : List Nat) : List Nat :=
  let l := msg.length
  let padZeros := (119 - l % 64) % 64
  msg ++ [128] ++ List.replicate padZeros 0 ++ lengthBytes64 (8 * l)

/-- Extend the 16 message-schedule words of a block to 64. -/
def sha256Schedule (ws : List Nat) : List Nat :=
  (List.range 64).foldl
    (fun acc t =>
      if t < 16 then acc ++ [ws.getD t 0]
      else acc ++ [w32 (smallSigma1 (acc.getD (t - 2) 0) + acc.getD (t - 7) 0 +
                        smallSigma0 (acc.getD (t - 15) 0) + acc.getD (t - 16) 0)])
    []

/-- One SHA-256 compression of a 64-byte block into the running hash. -/
def sha256Compress (h : List Nat) (block : List Nat) : List Nat :=
  let ws := sha256Schedule (bytesToWords block)
  let final := (List.zip sha256K ws).foldl
    (fun st kw =>
      match st with
      | [a, b, c, d, e, f, g, hh] =>
        let t1 := w32 (hh + bigSigma1 e + sha256Ch e f g + kw.1 + kw.2)
        let t2 := w32 (bigSigma0 a + sha256Maj a b c)
        [w32 (t1 + t2), a, b, c, w32 (d + t1), e, f, g]
      | other => other)
    h
  (List.zip h final).map fun p => w32 (p.1 + p.2)

/-- Fold the compression function over the 64-byte blocks. -/
def sha256Blocks (h : List Nat) (bytes : List Nat) : List Nat :=
  match bytes with
  | [] => h
  | b :: rest => sha256Blocks (sha256Compress h ((b :: rest).take 64)) (rest.drop 63)
termination_by bytes.length
decreasing_by
  simp only [List.length_drop, List.length_cons]
  omega

/-- SHA-256 digest of a byte list, as 32 bytes. -/
def sha256 (msg : List Nat) : List Nat :=
  (sha256Blocks sha256H0 (sha256Pad msg)).foldr
    (fun wrd acc => (wrd >>> 24) % 256 :: (wrd >>> 16) % 256 :: (wrd >>> 8) % 256 :: wrd % 256 :: acc)
    []

/-- HMAC-SHA256 (`hmac.new(key, msg=msg, digestmod=hashlib.sha256)`):
a key longer than the 64-byte block is hashed first, the key is
zero-padded to 64 bytes, and the digest is
`H((key xor opad) ++ H((key xor ipad) ++ msg))`. -/
def hmacSha256 (key msg : List Nat) : List Nat :=
  let k0 := if 64 < key.length then sha256 key else key
  let kpad := k0 ++ List.replicate (64 - k0.length) 0
  let ipadded := kpad.map (fun b => b ^^^ 0x36)
  let opadded := kpad.map (fun b => b ^^^ 0x5C)
  sha256 (opadded ++ sha256 (ipadded ++ msg))

/-- One lowercase hexadecimal digit. -/
def hexDigitLower (n : Nat) : Char :=
  if n < 10 then Char.ofNat (48 + n) else Char.ofNat (87 + n)

/-- Python `hexdigest()`: the lowercase hexadecimal rendering of a byte list. -/
def hexDigest (bs : List Nat) : String :=
  String.mk (bs.foldr (fun b acc => hexDigitLower (b / 16) :: hexDigitLower (b % 16) :: acc) [])

/-- Python `_get_app_secret_proof(token)`: the lowercase hex digest of
HMAC-SHA256 keyed by the UTF-8 bytes of `app_secret` over the UTF-8
bytes of the token. -/
def Client.get_app_secret_proof (c : Client) (token : String) : String :=
  hexDigest (hmacSha256 (utf8Encode c.app_secret.data) (utf8Encode token.data))

/-- Python `_get_params(token=None)`: `_token = token if token else
self.access_token` (Python truthiness, so `None` and `""` both fall back
to the stored token), then the two-entry dict with the token and its
app-secret proof.  When the selected token is `None`,
`_get_app_secret_proof` evaluates `None.encode(\x27utf-8\x27)` and
raises `AttributeError`. -/
def Client.get_params (c : Client) (token : Option String) : Except PyError (List (String × PValue)) :=
  match (if pyTruthyOptStr token then token else c.access_token) with
  | some t => .ok [("access_token", .str t), ("appsecret_proof", .str (c.get_app_secret_proof t))]
  | none => .error (.attributeError "NoneType object has no attribute encode")

/-- The always-safe bytes of `urllib.parse.quote`: ASCII letters,
digits, and `_`, `.`, `-`, `~`. -/
def isSafeByte (b : Nat) : Bool :=
  (65 ≤ b && b ≤ 90) || (97 ≤ b && b ≤ 122) || (48 ≤ b && b ≤ 57) ||
  b == 95 || b == 46 || b == 45 || b == 126

/-- One uppercase hexadecimal digit, as used by percent-encoding. -/
def hexDigitUpper (n : Nat) : Char :=
  if n < 10 then Char.ofNat (48 + n) else Char.ofNat (55 + n)

/-- Python `urllib.parse.quote_plus` on a single byte: safe bytes pass through,
a space becomes `+`, everything else becomes `%XX`. -/
def quoteByte (b : Nat) : List Char :=
  if isSafeByte b then [Char.ofNat b]
  else if b == 32 then ['+']
  else ['%', hexDigitUpper (b / 16), hexDigitUpper (b % 16)]

/-- Python `quote_plus` over a byte list. -/
def quoteBytes : List Nat → List Char
  | [] => []
  | b :: bs => quoteByte b ++ quoteBytes bs

/-- Python `urllib.parse.quote_plus(s)`: percent-encode the UTF-8 bytes of
`s`, as a character list. -/
def quotePlusChars (s : String) : List Char :=
  quoteBytes (utf8Encode s.data)

/-- Python `urllib.parse.quote_plus(s)` as a string. -/
def quotePlus (s : String) : String :=
  String.mk (quotePlusChars s)

/-- Python `urllib.parse.urlencode(params)` (which quotes via `quote_plus`):
the `&`-joined `key=value` pairs, as a character list. -/
def urlencodeChars : List (String × String) → List Char
  | [] => []
  | [p] => quotePlusChars p.1 ++ '=' :: quotePlusChars p.2
  | p :: ps => quotePlusChars p.1 ++ '=' :: quotePlusChars p.2 ++ '&' :: urlencodeChars ps

/-- Python `urllib.parse.urlencode(params)` as a string. -/
def urlencode (ps : List (String × String)) : String :=
  String.mk (urlencodeChars ps)

/-- Python `" ".join(scope)`. -/
def joinSpace : List String → String
  | [] => ""
  | [s] => s
  | s :: ss => s ++ " " ++ joinSpace ss

/-- Python `get_app_token()`: the unauthenticated client-credentials request. -/
def Client.get_app_token (c : Client) : Request :=
  { method := .GET
    url := c.baseUrl ++ "/oauth/access_token"
    params := [("client_id", .str c.app_id), ("client_secret", .str c.app_secret),
               ("grant_type", .str "client_credentials")] }

/-- Python `authorization_url(redirect_url, scope)`: the OAuth dialog URL built
from the urlencoded `client_id`, `redirect_uri` and space-joined
`scope` parameters. -/
def Client.authorization_url (c : Client) (redirect_url : String) (scope : List String) : String :=
  "https://facebook.com/dialog/oauth?" ++
    urlencode [("client_id", c.app_id), ("redirect_uri", redirect_url),
               ("scope", joinSpace scope)]

/-- Python `exchange_code(redirect_url, code)`. -/
def Client.exchange_code (c : Client) (redirect_url code : String) : Request :=
  { method := .GET
    url := c.baseUrl ++ "/oauth/access_token"
    params := [("client_id", .str c.app_id), ("redirect_uri", .str redirect_url),
               ("client_secret", .str c.app_secret), ("code", .str code)] }

/-- Python `extend_token(token)`. -/
def Client.extend_token (c : Client) (token : String) : Request :=
  { method := .GET
    url := c.baseUrl ++ "/oauth/access_token"
    params := [("grant_type", .str "fb_exchange_token"), ("client_id", .str c.app_id),
               ("client_secret", .str c.app_secret), ("fb_exchange_token", .str token)] }

/-- Python `inspect_token(input_token, token)`. -/
def Client.inspect_token (c : Client) (input_token token : String) : Request :=
  { method := .GET
    url := c.baseUrl ++ "/debug_token"
    params := [("input_token", .str input_token), ("access_token", .str token)] }

/-- Modelled from the spec: the missing
`facebookmarketing.decorator.access_token_required` wrapper, the
precondition guard of §9: it raises the access-token-required library
error when the stored token is unset (falsy), and otherwise runs the
wrapped method body. -/
def accessTokenGuard (c : Client) (body : Unit → Except PyError α) : Except PyError α :=
  if pyTruthyOptStr c.access_token then body ()
  else .error (.lib (.AccessTokenRequired "You must set the Access Token."))

/-- Python `get_account()`: authenticated GET of `/me`. -/
def Client.get_account (c : Client) : Except PyError Request :=
  accessTokenGuard c fun _ =>
    (c.get_params none).map fun params =>
      { method := .GET, url := c.baseUrl ++ "/me", params := params }

/-- Python `get_pages()`: authenticated GET of `/me/accounts`. -/
def Client.get_pages (c : Client) : Except PyError Request :=
  accessTokenGuard c fun _ =>
    (c.get_params none).map fun params =>
      { method := .GET, url := c.baseUrl ++ "/me/accounts", params := params }

/-- Python `x[key]` on a JSON value: object lookup (first binding;
`KeyError` when absent), `TypeError` on strings, lists and the other
non-subscriptable values. -/
def pyGetItem : Json → String → Except PyError Json
  | .obj kvs, k =>
    match kvs.lookup k with
    | some v => .ok v
    | none => .error (.keyError k)
  | .str _, _ => .error (.typeError "string indices must be integers")
  | .arr _, _ => .error (.typeError "list indices must be integers")
  | _, _ => .error (.typeError "object is not subscriptable")

/-- The generator scan of `get_page_token`:
`next((p for p in data if p[\x27id\x27] == page_id), None)`. -/
def findPage (page_id : String) : List Json → Except PyError (Option Json)
  | [] => .ok none
  | p :: rest =>
    match pyGetItem p "id" with
    | .error e => .error e
    | .ok v => if v == Json.str page_id then .ok (some p) else findPage page_id rest

/-- Python iteration over a JSON value (`for p in pages[\x27data\x27]`):
lists yield their elements, strings their characters, dicts their keys;
other values raise `TypeError`. -/
def pyIter : Json → Except PyError (List Json)
  | .arr xs => .ok xs
  | .str s => .ok (s.data.map fun ch => Json.str (String.mk [ch]))
  | .obj kvs => .ok (kvs.map fun kv => Json.str kv.1)
  | _ => .error (.typeError "object is not iterable")

/-- Python `get_page_token(page_id)`: guard, fetch the pages (the decoded
response of the `get_pages` request is the `pages` argument), then
linearly scan `pages[\x27data\x27]` for an entry whose `id` equals
`page_id`, returning `None` when there is none. -/
def Client.get_page_token (c : Client) (page_id : String) (pages : Json) :
    Except PyError (Option Json) :=
  accessTokenGuard c fun _ =>
    match pyGetItem pages "data" with
    | .error e => .error e
    | .ok data =>
      match pyIter data with
      | .error e => .error e
      | .ok ps => findPage page_id ps

/-- Python `get_page_subscribed_apps(page_id, token)`: GET of
`/{page_id}/subscribed_apps` with the params of `_get_params(token)`. -/
def Client.get_page_subscribed_apps (c : Client) (page_id : String) (token : Option String) :
    Except PyError Request :=
  (c.get_params token).map fun params =>
    { method := .GET, url := c.baseUrl ++ "/" ++ page_id ++ "/subscribed_apps", params := params }

/-- Python `create_page_subscribed_apps(page_id, token)`: POST variant. -/
def Client.create_page_subscribed_apps (c : Client) (page_id : String) (token : Option String) :
    Except PyError Request :=
  (c.get_params token).map fun params =>
    { method := .POST, url := c.baseUrl ++ "/" ++ page_id ++ "/subscribed_apps", params := params }

/-- Python `delete_page_subscribed_apps(page_id, token)`: DELETE variant. -/
def Client.delete_page_subscribed_apps (c : Client) (page_id : String) (token : Option String) :
    Except PyError Request :=
  (c.get_params token).map fun params =>
    { method := .DELETE, url := c.baseUrl ++ "/" ++ page_id ++ "/subscribed_apps", params := params }

/-- Python `get_ad_account_leadgen_forms(page_id)`: authenticated GET of
`/{page_id}/leadgen_forms`. -/
def Client.get_ad_account_leadgen_forms (c : Client) (page_id : String) : Except PyError Request :=
  accessTokenGuard c fun _ =>
    (c.get_params none).map fun params =>
      { method := .GET, url := c.baseUrl ++ "/" ++ page_id ++ "/leadgen_forms", params := params }

/-- A `datetime` argument, carrying the POSIX seconds its `timestamp()`
method returns. -/
structure Datetime where
  posixSeconds : Int

/-- Python `datetime.timestamp()`. -/
def Datetime.timestamp (d : Datetime) : Int := d.posixSeconds

/-- Python `get_ad_leads(form_id, from_date=None)`: guard, build the auth
params, then unconditionally evaluate `from_date.timestamp()` — when
`from_date` is `None` this raises `AttributeError` before the request
for `/{form_id}/leads` is built. -/
def Client.get_ad_leads (c : Client) (form_id : String) (from_date : Option Datetime) :
    Except PyError Request :=
  accessTokenGuard c fun _ =>
    match c.get_params none with
    | .error e => .error e
    | .ok params =>
      match from_date with
      | none => .error (.attributeError "NoneType object has no attribute timestamp")
      | some d =>
        .ok { method := .GET
              url := c.baseUrl ++ "/" ++ form_id ++ "/leads"
              params := params ++ [("from_date", .num d.timestamp)] }

/-- The unimplemented catalogued endpoints: each stub method raises
`NotImplementedError` immediately and builds no request. -/
def Client.create_ad_leads (_ : Client) : Except PyError Request :=
  .error .notImplemented

def Client.get_ad_creatives (_ : Client) : Except PyError Request :=
  .error .notImplemented

def Client.get_ad_copies (_ : Client) : Except PyError Request :=
  .error .notImplemented

def Client.create_ad_copies (_ : Client) : Except PyError Request :=
  .error .notImplemented

def Client.get_ad_insights (_ : Client) : Except PyError Request :=
  .error .notImplemented

def Client.create_ad_insights (_ : Client) : Except PyError Request :=
  .error .notImplemented

def Client.get_ad_keyword_stats (_ : Client) : Except PyError Request :=
  .error .notImplemented

def Client.get_ad_previews (_ : Client) : Except PyError Request :=
  .error .notImplemented

def Client.get_ad_targeting_sentence_lines (_ : Client) : Except PyError Request :=
  .error .notImplemented

def Client.get_ad_account_activities (_ : Client) : Except PyError Request :=
  .error .notImplemented

def Client.get_ad_account_ad_place_page_sets (_ : Client) : Except PyError Request :=
  .error .notImplemented

def Client.create_ad_account_ad_place_page_sets (_ : Client) : Except PyError Request :=
  .error .notImplemented

def Client.get_ad_account_ad_studies (_ : Client) : Except PyError Request :=
  .error .notImplemented

def Client.get_ad_account_ad_asset_feeds (_ : Client) : Except PyError Request :=
  .error .notImplemented

def Client.get_ad_account_ad_creatives (_ : Client) : Except PyError Request :=
  .error .notImplemented

def Client.create_ad_account_ad_creatives (_ : Client) : Except PyError Request :=
  .error .notImplemented

def Client.get_ad_account_ad_creatives_by_labels (_ : Client) : Except PyError Request :=
  .error .notImplemented

def Client.get_ad_account_ad_images (_ : Client) : Except PyError Request :=
  .error .notImplemented

def Client.create_ad_account_ad_images (_ : Client) : Except PyError Request :=
  .error .notImplemented

def Client.delete_ad_account_ad_images (_ : Client) : Except PyError Request :=
  .error .notImplemented

def Client.get_ad_account_ad_labels (_ : Client) : Except PyError Request :=
  .error .notImplemented

def Client.create_ad_account_ad_labels (_ : Client) : Except PyError Request :=
  .error .notImplemented

def Client.get_ad_account_ad_report_runs (_ : Client) : Except PyError Request :=
  .error .notImplemented

def Client.get_ad_account_ad_report_schedules (_ : Client) : Except PyError Request :=
  .error .notImplemented

def Client.get_ad_account_ad_rules_library (_ : Client) : Except PyError Request :=
  .error .notImplemented

def Client.create_ad_account_ad_rules_library (_ : Client) : Except PyError Request :=
  .error .notImplemented

def Client.get_ad_account_ads (_ : Client) : Except PyError Request :=
  .error .notImplemented

def Client.create_ad_account_ads (_ : Client) : Except PyError Request :=
  .error .notImplemented

def Client.get_ad_account_ads_by_label (_ : Client) : Except PyError Request :=
  .error .notImplemented

def Client.get_ad_account_adsets (_ : Client) : Except PyError Request :=
  .error .notImplemented

def Client.create_ad_account_adsets (_ : Client) : Except PyError Request :=
  .error .notImplemented

def Client.get_ad_account_adsets_by_labels (_ : Client) : Except PyError Request :=
  .error .notImplemented

def Client.get_ad_account_ads_pixel (_ : Client) : Except PyError Request :=
  .error .notImplemented

def Client.create_ad_account_ads_pixel (_ : Client) : Except PyError Request :=
  .error .notImplemented

def Client.get_ad_account_adtoplinedetails (_ : Client) : Except PyError Request :=
  .error .notImplemented

def Client.get_ad_account_adtoplines (_ : Client) : Except PyError Request :=
  .error .notImplemented

def Client.get_ad_account_advertisable_applications (_ : Client) : Except PyError Request :=
  .error .notImplemented

def Client.get_ad_account_advideos (_ : Client) : Except PyError Request :=
  .error .notImplemented

def Client.create_ad_account_advideos (_ : Client) : Except PyError Request :=
  .error .notImplemented

def Client.get_ad_account_an_roas (_ : Client) : Except PyError Request :=
  .error .notImplemented

def Client.get_ad_account_applications (_ : Client) : Except PyError Request :=
  .error .notImplemented

def Client.get_ad_account_async_requests (_ : Client) : Except PyError Request :=
  .error .notImplemented

def Client.get_ad_account_asyncadrequestsets (_ : Client) : Except PyError Request :=
  .error .notImplemented

def Client.create_ad_account_asyncadrequestsets (_ : Client) : Except PyError Request :=
  .error .notImplemented

def Client.get_ad_account_broadtargetingcategories (_ : Client) : Except PyError Request :=
  .error .notImplemented

def Client.get_ad_account_business_activities (_ : Client) : Except PyError Request :=
  .error .notImplemented

def Client.get_ad_account_campaigns (_ : Client) : Except PyError Request :=
  .error .notImplemented

def Client.create_ad_account_campaigns (_ : Client) : Except PyError Request :=
  .error .notImplemented

def Client.delete_ad_account_campaigns (_ : Client) : Except PyError Request :=
  .error .notImplemented

def Client.get_ad_account_campaigns_by_label (_ : Client) : Except PyError Request :=
  .error .notImplemented

def Client.get_ad_account_contextual_targeting_browse (_ : Client) : Except PyError Request :=
  .error .notImplemented

def Client.get_ad_account_custom_audiences (_ : Client) : Except PyError Request :=
  .error .notImplemented

def Client.create_ad_account_custom_audiences (_ : Client) : Except PyError Request :=
  .error .notImplemented

def Client.get_ad_account_custom_audiencestos (_ : Client) : Except PyError Request :=
  .error .notImplemented

def Client.get_ad_account_delivery_estimate (_ : Client) : Except PyError Request :=
  .error .notImplemented

def Client.get_ad_account_generate_previews (_ : Client) : Except PyError Request :=
  .error .notImplemented

def Client.get_ad_account_insights (_ : Client) : Except PyError Request :=
  .error .notImplemented

def Client.create_ad_account_insights (_ : Client) : Except PyError Request :=
  .error .notImplemented

def Client.get_ad_account_instagram_accounts (_ : Client) : Except PyError Request :=
  .error .notImplemented

def Client.get_ad_account_minimum_budgets (_ : Client) : Except PyError Request :=
  .error .notImplemented

def Client.get_ad_account_offline_conversion_data_sets (_ : Client) : Except PyError Request :=
  .error .notImplemented

def Client.get_ad_account_offsitepixels (_ : Client) : Except PyError Request :=
  .error .notImplemented

def Client.create_account_ad_offsitepixels (_ : Client) : Except PyError Request :=
  .error .notImplemented

def Client.get_ad_account_partnercategories (_ : Client) : Except PyError Request :=
  .error .notImplemented

def Client.get_ad_account_partners (_ : Client) : Except PyError Request :=
  .error .notImplemented

def Client.get_ad_account_publisher_block_lists (_ : Client) : Except PyError Request :=
  .error .notImplemented

def Client.create_ad_account_publisher_block_lists (_ : Client) : Except PyError Request :=
  .error .notImplemented

def Client.get_ad_account_ratecard (_ : Client) : Except PyError Request :=
  .error .notImplemented

def Client.get_ad_account_reachestimate (_ : Client) : Except PyError Request :=
  .error .notImplemented

def Client.get_ad_account_reach_frequency_predictions (_ : Client) : Except PyError Request :=
  .error .notImplemented

def Client.create_ad_account_reach_frequency_predictions (_ : Client) : Except PyError Request :=
  .error .notImplemented

def Client.get_ad_account_roas (_ : Client) : Except PyError Request :=
  .error .notImplemented

def Client.get_ad_account_rule_execution_history (_ : Client) : Except PyError Request :=
  .error .notImplemented

def Client.get_ad_account_targeting_browse (_ : Client) : Except PyError Request :=
  .error .notImplemented

def Client.get_ad_account_targeting_search (_ : Client) : Except PyError Request :=
  .error .notImplemented

def Client.get_ad_account_targeting_sentence_lines (_ : Client) : Except PyError Request :=
  .error .notImplemented

def Client.get_ad_account_targeting_suggestions (_ : Client) : Except PyError Request :=
  .error .notImplemented

def Client.get_ad_account_targeting_validations (_ : Client) : Except PyError Request :=
  .error .notImplemented

def Client.get_ad_account_targeting_tracking (_ : Client) : Except PyError Request :=
  .error .notImplemented

def Client.create_ad_account_targeting_tracking (_ : Client) : Except PyError Request :=
  .error .notImplemented

def Client.delete_ad_account_targeting_tracking (_ : Client) : Except PyError Request :=
  .error .notImplemented

def Client.get_ad_account_targeting_transactions (_ : Client) : Except PyError Request :=
  .error .notImplemented

def Client.get_ad_account_users (_ : Client) : Except PyError Request :=
  .error .notImplemented

/-- Membership of a key in a JSON object. -/
def dictContains (kvs : List (String × Json)) (k : String) : Bool :=
  (kvs.lookup k).isSome

/-- Whether `needle` occurs as a contiguous run inside `hay`. -/
def infixOf (needle : List Char) : List Char → Bool
  | [] => needle.isEmpty
  | c :: rest => needle.isPrefixOf (c :: rest) || infixOf needle rest

/-- Python `key in x` on a JSON value (`\x27error\x27 in
response[\x27data\x27]`): key membership for dicts, element membership
for lists, substring test for strings, `TypeError` otherwise. -/
def pyContains (x : Json) (k : String) : Except PyError Bool :=
  match x with
  | .obj kvs => .ok (dictContains kvs k)
  | .arr xs => .ok (xs.contains (Json.str k))
  | .str s => .ok (infixOf k.data s.data)
  | _ => .error (.typeError "argument is not iterable")

/-- Python `str(x)` of a JSON value, as used by
`\x27Error: \x7b\x7d. Message \x7b\x7d\x27.format(code, message)`.
Containers render in a JSON-like notation (Python would use its own
repr; no claim formats a container). -/
def pyStr : Json → String
  | .null => "None"
  | .bool true => "True"
  | .bool false => "False"
  | .num n => toString n
  | .str s => s
  | .arr _ => "[.]"
  | .obj _ => "\x7b.\x7d"

/-- The detail string of the generic errors:
`\x27Error: \x7b\x7d. Message \x7b\x7d\x27.format(code, message)`. -/
def formatError (code message : Json) : String :=
  "Error: " ++ pyStr code ++ ". Message " ++ pyStr message

/-- Modelled from the spec: `ErrorEnum(code)` applied to the decoded
JSON `code` value; a non-integral value is no member, and Python booleans
compare equal to `0`/`1` in the member lookup. -/
def errorEnumOf : Json → Option ErrorEnum
  | .num n => ErrorEnum.ofCode n
  | .bool b => ErrorEnum.ofCode (if b then 1 else 0)
  | _ => none

/-- The `elif` dispatch of `_parse`: the specific library error raised
for each recognized `ErrorEnum` member, carrying the `message` value.
(The final `else: raise exception.BaseError(...)` branch of the source
is unreachable, every member being dispatched above it.) -/
def classify (e : ErrorEnum) (message : Json) : LibError :=
  match e with
  | .UnknownError => .UnknownError message
  | .AppRateLimit => .AppRateLimitError message
  | .AppPermissionRequired => .AppPermissionRequiredError message
  | .UserRateLimit => .UserRateLimitError message
  | .InvalidParameter => .InvalidParameterError message
  | .SessionKeyInvalid => .SessionKeyInvalidError message
  | .IncorrectPermission => .IncorrectPermissionError message
  | .InvalidOauth20AccessToken => .PermissionError message
  | .ExtendedPermissionRequired => .ExtendedPermissionRequiredError message

/-- The locate step of `_parse`: `error = response[\x27error\x27]` when
the top level has an `error` key, else `response[\x27data\x27][\x27error\x27]`
when `\x27data\x27 in response and \x27error\x27 in response[\x27data\x27]`,
else `None`.  The membership test and the subscript on a non-dict
`data` value follow Python semantics and may raise. -/
def locateError (response : List (String × Json)) : Except PyError (Option Json) :=
  if dictContains response "error" then .ok (response.lookup "error")
  else
    match response.lookup "data" with
    | some d =>
      match pyContains d "error" with
      | .error e => .error e
      | .ok true =>
        match pyGetItem d "error" with
        | .error e => .error e
        | .ok v => .ok (some v)
      | .ok false => .ok none
    | none => .ok none

/-- The classification step of `_parse` on a located, truthy error
object: read `code` and `message`, look the code up in `ErrorEnum`
(an exception there raises the generic `UnexpectedError` carrying the
formatted code and message), then dispatch to the specific kind. -/
def handleError (err : Json) (response : List (String × Json)) :
    Except PyError (List (String × Json)) :=
  if pyTruthy err then
    match pyGetItem err "code" with
    | .error e => .error e
    | .ok code =>
      match pyGetItem err "message" with
      | .error e => .error e
      | .ok message =>
        match errorEnumOf code with
        | none => .error (.lib (.UnexpectedError (formatError code message)))
        | some en => .error (.lib (classify en message))
  else .ok response

/-- Python `_parse(response)` on a decoded JSON object body: locate an error
object, and either raise its classification or return the body
unchanged. -/
def Client.parse (response : List (String × Json)) : Except PyError (List (String × Json)) :=
  match locateError response with
  | .error e => .error e
  | .ok (some err) => handleError err response
  | .ok none => .ok response

/-- The numeric value of one hexadecimal digit character (either
case). -/
def hexVal (ch : Char) : Option Nat :=
  if 48 ≤ ch.toNat && ch.toNat ≤ 57 then some (ch.toNat - 48)
  else if 65 ≤ ch.toNat && ch.toNat ≤ 70 then some (ch.toNat - 55)
  else if 97 ≤ ch.toNat && ch.toNat ≤ 102 then some (ch.toNat - 87)
  else none

/-- One step of the spec-side decoding of a query component
(`unquote_plus` at the byte level): `+` decodes to a space byte, `%XX`
to the byte `XX`, and a plain ASCII character to its own byte. -/
def unquoteStep (c : Char) (rest : List Char) : Option (Nat × List Char) :=
  if c == '+' then some (32, rest)
  else if c == '%' then
    match rest with
    | h :: l :: rest2 =>
      match hexVal h, hexVal l with
      | some hv, some lv => some ((16 * hv + lv), rest2)
      | _, _ => none
    | _ => none
  else if c.toNat < 128 then some (c.toNat, rest)
  else none

set_option maxRecDepth 4000 in
/-- Spec-side decoding of a query component to bytes. -/
def unquotePlusBytes : List Char → Option (List Nat)
  | [] => some []
  | c :: rest =>
    match h : unquoteStep c rest with
    | none => none
    | some p => (unquotePlusBytes p.2).map (p.1 :: ·)
termination_by cs => cs.length
decreasing_by
  simp only [unquoteStep] at h
  repeat' split at h
  all_goals cases h <;> simp <;> omega

/-- A UTF-8 continuation byte. -/
def contByte (b : Nat) : Bool := 128 ≤ b && b < 192

/-- Decode one UTF-8-encoded scalar value at the head of a byte stream,
returning the code point and the remaining bytes. -/
def utf8Step (b0 : Nat) (rest : List Nat) : Option (Nat × List Nat) :=
  if b0 < 128 then some (b0, rest)
  else if b0 < 192 then none
  else if b0 < 224 then
    match rest with
    | b1 :: rest1 =>
      if contByte b1 then some ((b0 - 192) * 64 + (b1 - 128), rest1) else none
    | [] => none
  else if b0 < 240 then
    match rest with
    | b1 :: b2 :: rest2 =>
      if contByte b1 && contByte b2 then
        some ((b0 - 224) * 4096 + (b1 - 128) * 64 + (b2 - 128), rest2)
      else none
    | _ => none
  else if b0 < 248 then
    match rest with
    | b1 :: b2 :: b3 :: rest3 =>
      if (contByte b1 && contByte b2) && contByte b3 then
        some ((b0 - 240) * 262144 + (b1 - 128) * 4096 + (b2 - 128) * 64 + (b3 - 128), rest3)
      else none
    | _ => none
  else none

set_option maxRecDepth 4000 in
/-- UTF-8 decoding of a byte list back to characters. -/
def utf8Decode : List Nat → Option (List Char)
  | [] => some []
  | b0 :: rest =>
    match h : utf8Step b0 rest with
    | none => none
    | some p => (utf8Decode p.2).map (Char.ofNat p.1 :: ·)
termination_by bs => bs.length
decreasing_by
  simp only [utf8Step] at h
  repeat' split at h
  all_goals cases h <;> simp <;> omega

/-- Python `unquote_plus` of a query component: bytes, then UTF-8. -/
def unquotePlus (cs : List Char) : Option String :=
  (unquotePlusBytes cs).bind fun bs => (utf8Decode bs).map String.mk

/-- Split a character list at every occurrence of `sep` (the result is
always nonempty). -/
def splitOnChar (sep : Char) : List Char → List (List Char)
  | [] => [[]]
  | c :: rest =>
    let r := splitOnChar sep rest
    if c == sep then [] :: r else (c :: r.headI) :: r.tail

/-- Split a character list at the first occurrence of `sep` (the whole
list and an empty remainder when `sep` is absent). -/
def splitFirst (sep : Char) : List Char → List Char × List Char
  | [] => ([], [])
  | c :: rest =>
    if c == sep then ([], rest)
    else
      let p := splitFirst sep rest
      (c :: p.1, p.2)

/-- Spec-side decoding of one `key=value` chunk: split at the first
`=` and unquote both sides. -/
def decodePair (chunk : List Char) : Option (String × String) :=
  (unquotePlus (splitFirst '=' chunk).1).bind fun k =>
    (unquotePlus (splitFirst '=' chunk).2).map fun v => (k, v)

/-- Spec-side decoding of a chunk list. -/
def decodePairs : List (List Char) → Option (List (String × String))
  | [] => some []
  | chunk :: rest =>
    (decodePair chunk).bind fun p => (decodePairs rest).map fun ps => p :: ps

/-- Spec-side decoding of a query string (`parse_qsl`): split on `&`,
split each pair at the first `=`, and unquote both sides. -/
def parseQslChars (q : List Char) : Option (List (String × String)) :=
  decodePairs (splitOnChar '&' q)

/-- Spec-side decoding of a query string. -/
def parseQsl (q : String) : Option (List (String × String)) :=
  parseQslChars q.data

/-- C1 counterexample: an empty-string override is a given override, yet
`_get_params` falls back to the stored token `"STORED"` for it (Python
truthiness of `token if token else self.access_token`), so the returned
`access_token` is not the override. -/
theorem get_params_empty_override_counterexample :
    Client.get_params ⟨"app", "secret", "v5.0", some "STORED"⟩ (some "") =
      .ok [("access_token", .str "STORED"),
           ("appsecret_proof",
            .str (Client.get_app_secret_proof ⟨"app", "secret", "v5.0", some "STORED"⟩ "STORED"))] ∧
    "STORED" ≠ "" :=
  ⟨rfl, by decide⟩

/-- C1 (amended): for every call to `_get_params`, the returned mapping
is exactly `access_token = t` and `appsecret_proof = proof(app_secret, t)`
where `t` is the override when a non-empty override is given and
otherwise (override absent, `None` or empty) the stored client token;
the proof is the lowercase hex HMAC-SHA256 digest keyed by `app_secret`
over that same `t`, so token and proof always correspond. -/
theorem get_params_selected_token_and_proof (c : Client) (token : Option String) (t : String)
    (h : (if pyTruthyOptStr token then token else c.access_token) = some t) :
    c.get_params token =
      .ok [("access_token", .str t), ("appsecret_proof", .str (c.get_app_secret_proof t))] := by
  unfold Client.get_params
  rw [h]

/-- C1 witness: the amended theorem applied with no override and stored
token `"TOK"`. -/
theorem get_params_selected_token_and_proof_witness :
    Client.get_params ⟨"a", "s", "v5.0", some "TOK"⟩ none =
      .ok [("access_token", .str "TOK"),
           ("appsecret_proof",
            .str (Client.get_app_secret_proof ⟨"a", "s", "v5.0", some "TOK"⟩ "TOK"))] :=
  get_params_selected_token_and_proof ⟨"a", "s", "v5.0", some "TOK"⟩ none "TOK" (by decide)

/-- C2 counterexample: `get_page_subscribed_apps` called with the
per-call token `None` does fall back to the stored default
access token `"STORED"` (via the `_get_params` truthiness fallback),
contradicting the claimed no-fallback behavior. -/
theorem page_subscribed_apps_fallback_counterexample :
    Client.get_page_subscribed_apps ⟨"app", "secret", "v5.0", some "STORED"⟩ "42" none =
      .ok { method := .GET
            url := "https://graph.facebook.com/v5.0/42/subscribed_apps"
            params := [("access_token", .str "STORED"),
                       ("appsecret_proof",
                        .str (Client.get_app_secret_proof
                          ⟨"app", "secret", "v5.0", some "STORED"⟩ "STORED"))] } := by
  rfl

/-- C2 (amended): for every page id and every non-empty per-call token,
the three operations issue GET, POST and DELETE against
`/{page_id}/subscribed_apps` using exactly that per-call token; a `None`
or empty per-call token instead falls back to the stored default
token. -/
theorem page_subscribed_apps_per_call_token (c : Client) (page_id t : String) (h : t ≠ "") :
    c.get_page_subscribed_apps page_id (some t) =
      .ok { method := .GET
            url := c.baseUrl ++ "/" ++ page_id ++ "/subscribed_apps"
            params := [("access_token", .str t),
                       ("appsecret_proof", .str (c.get_app_secret_proof t))] } ∧
    c.create_page_subscribed_apps page_id (some t) =
      .ok { method := .POST
            url := c.baseUrl ++ "/" ++ page_id ++ "/subscribed_apps"
            params := [("access_token", .str t),
                       ("appsecret_proof", .str (c.get_app_secret_proof t))] } ∧
    c.delete_page_subscribed_apps page_id (some t) =
      .ok { method := .DELETE
            url := c.baseUrl ++ "/" ++ page_id ++ "/subscribed_apps"
            params := [("access_token", .str t),
                       ("appsecret_proof", .str (c.get_app_secret_proof t))] } := by
  have hsel : (if pyTruthyOptStr (some t) then some t else c.access_token) = some t := by
    simp [pyTruthyOptStr, h]
  refine ⟨?_, ?_, ?_⟩ <;>
    simp [Client.get_page_subscribed_apps, Client.create_page_subscribed_apps,
          Client.delete_page_subscribed_apps, Client.get_params, hsel, Except.map]

/-- C2 witness: the amended theorem applied with the non-empty per-call
token `"PTOK"` on a client whose stored token differs. -/
theorem page_subscribed_apps_per_call_token_witness :
    Client.get_page_subscribed_apps ⟨"a", "s", "v5.0", some "STORED"⟩ "42" (some "PTOK") =
      .ok { method := .GET
            url := "https://graph.facebook.com/v5.0/42/subscribed_apps"
            params := [("access_token", .str "PTOK"),
                       ("appsecret_proof",
                        .str (Client.get_app_secret_proof
                          ⟨"a", "s", "v5.0", some "STORED"⟩ "PTOK"))] } :=
  (page_subscribed_apps_per_call_token ⟨"a", "s", "v5.0", some "STORED"⟩ "42" "PTOK"
    (by decide)).1

/-- C6: every access-token-required operation invoked on a client whose
access token was never set (still `None`) fails with the
access-token-required precondition error, and, the only success value
of the embedding being the request description, performs no network
activity. -/
theorem token_required_ops_fail_without_token (c : Client) (page_id form_id : String)
    (pages : Json) (from_date : Option Datetime) (h : c.access_token = none) :
    c.get_account = .error (.lib (.AccessTokenRequired "You must set the Access Token.")) ∧
    c.get_pages = .error (.lib (.AccessTokenRequired "You must set the Access Token.")) ∧
    c.get_page_token page_id pages =
      .error (.lib (.AccessTokenRequired "You must set the Access Token.")) ∧
    c.get_ad_account_leadgen_forms page_id =
      .error (.lib (.AccessTokenRequired "You must set the Access Token.")) ∧
    c.get_ad_leads form_id from_date =
      .error (.lib (.AccessTokenRequired "You must set the Access Token.")) := by
  refine ⟨?_, ?_, ?_, ?_, ?_⟩ <;>
    simp [Client.get_account, Client.get_pages, Client.get_page_token,
          Client.get_ad_account_leadgen_forms, Client.get_ad_leads,
          accessTokenGuard, pyTruthyOptStr, h]

/-- C6 witness: the theorem applied to a freshly constructed client. -/
theorem token_required_ops_fail_without_token_witness :
    Client.get_account ⟨"a", "s", "v5.0", none⟩ =
      .error (.lib (.AccessTokenRequired "You must set the Access Token.")) ∧
    Client.get_ad_leads ⟨"a", "s", "v5.0", none⟩ "F" none =
      .error (.lib (.AccessTokenRequired "You must set the Access Token.")) :=
  ⟨(token_required_ops_fail_without_token ⟨"a", "s", "v5.0", none⟩ "p" "F" .null none rfl).1,
   (token_required_ops_fail_without_token ⟨"a", "s", "v5.0", none⟩ "p" "F" .null none rfl).2.2.2.2⟩

/-- C10: `get_ad_leads` declares `from_date` optional but
unconditionally calls `from_date.timestamp()`; with an access token set
and `from_date` omitted (`None`), it fails with the uncategorized
`AttributeError` — not a library-classified error kind — before the
request to the network is built. -/
theorem get_ad_leads_none_from_date_attribute_error (c : Client) (form_id : String)
    (htok : pyTruthyOptStr c.access_token = true) :
    c.get_ad_leads form_id none =
      .error (.attributeError "NoneType object has no attribute timestamp") := by
  obtain ⟨t, ht⟩ : ∃ t, c.access_token = some t := by
    cases h : c.access_token with
    | none => rw [h] at htok; simp [pyTruthyOptStr] at htok
    | some t => exact ⟨t, rfl⟩
  unfold Client.get_ad_leads accessTokenGuard
  rw [htok]
  simp [Client.get_params, pyTruthyOptStr, ht]

/-- C10 witness: the theorem applied to a client with token `"TOK"`. -/
theorem get_ad_leads_none_from_date_attribute_error_witness :
    Client.get_ad_leads ⟨"a", "s", "v5.0", some "TOK"⟩ "F1" none =
      .error (.attributeError "NoneType object has no attribute timestamp") :=
  get_ad_leads_none_from_date_attribute_error ⟨"a", "s", "v5.0", some "TOK"⟩ "F1" (by decide)

/-- C7: every unimplemented catalogued operation, from `create_ad_leads`
through `get_ad_account_users`, fails with `NotImplementedError` for
every client state, and (its only success value being the request
description) performs no network call. -/
theorem stub_methods_not_implemented (c : Client) :
    Client.create_ad_leads c = .error .notImplemented ∧
    Client.get_ad_creatives c = .error .notImplemented ∧
    Client.get_ad_copies c = .error .notImplemented ∧
    Client.create_ad_copies c = .error .notImplemented ∧
    Client.get_ad_insights c = .error .notImplemented ∧
    Client.create_ad_insights c = .error .notImplemented ∧
    Client.get_ad_keyword_stats c = .error .notImplemented ∧
    Client.get_ad_previews c = .error .notImplemented ∧
    Client.get_ad_targeting_sentence_lines c = .error .notImplemented ∧
    Client.get_ad_account_activities c = .error .notImplemented ∧
    Client.get_ad_account_ad_place_page_sets c = .error .notImplemented ∧
    Client.create_ad_account_ad_place_page_sets c = .error .notImplemented ∧
    Client.get_ad_account_ad_studies c = .error .notImplemented ∧
    Client.get_ad_account_ad_asset_feeds c = .error .notImplemented ∧
    Client.get_ad_account_ad_creatives c = .error .notImplemented ∧
    Client.create_ad_account_ad_creatives c = .error .notImplemented ∧
    Client.get_ad_account_ad_creatives_by_labels c = .error .notImplemented ∧
    Client.get_ad_account_ad_images c = .error .notImplemented ∧
    Client.create_ad_account_ad_images c = .error .notImplemented ∧
    Client.delete_ad_account_ad_images c = .error .notImplemented ∧
    Client.get_ad_account_ad_labels c = .error .notImplemented ∧
    Client.create_ad_account_ad_labels c = .error .notImplemented ∧
    Client.get_ad_account_ad_report_runs c = .error .notImplemented ∧
    Client.get_ad_account_ad_report_schedules c = .error .notImplemented ∧
    Client.get_ad_account_ad_rules_library c = .error .notImplemented ∧
    Client.create_ad_account_ad_rules_library c = .error .notImplemented ∧
    Client.get_ad_account_ads c = .error .notImplemented ∧
    Client.create_ad_account_ads c = .error .notImplemented ∧
    Client.get_ad_account_ads_by_label c = .error .notImplemented ∧
    Client.get_ad_account_adsets c = .error .notImplemented ∧
    Client.create_ad_account_adsets c = .error .notImplemented ∧
    Client.get_ad_account_adsets_by_labels c = .error .notImplemented ∧
    Client.get_ad_account_ads_pixel c = .error .notImplemented ∧
    Client.create_ad_account_ads_pixel c = .error .notImplemented ∧
    Client.get_ad_account_adtoplinedetails c = .error .notImplemented ∧
    Client.get_ad_account_adtoplines c = .error .notImplemented ∧
    Client.get_ad_account_advertisable_applications c = .error .notImplemented ∧
    Client.get_ad_account_advideos c = .error .notImplemented ∧
    Client.create_ad_account_advideos c = .error .notImplemented ∧
    Client.get_ad_account_an_roas c = .error .notImplemented ∧
    Client.get_ad_account_applications c = .error .notImplemented ∧
    Client.get_ad_account_async_requests c = .error .notImplemented ∧
    Client.get_ad_account_asyncadrequestsets c = .error .notImplemented ∧
    Client.create_ad_account_asyncadrequestsets c = .error .notImplemented ∧
    Client.get_ad_account_broadtargetingcategories c = .error .notImplemented ∧
    Client.get_ad_account_business_activities c = .error .notImplemented ∧
    Client.get_ad_account_campaigns c = .error .notImplemented ∧
    Client.create_ad_account_campaigns c = .error .notImplemented ∧
    Client.delete_ad_account_campaigns c = .error .notImplemented ∧
    Client.get_ad_account_campaigns_by_label c = .error .notImplemented ∧
    Client.get_ad_account_contextual_targeting_browse c = .error .notImplemented ∧
    Client.get_ad_account_custom_audiences c = .error .notImplemented ∧
    Client.create_ad_account_custom_audiences c = .error .notImplemented ∧
    Client.get_ad_account_custom_audiencestos c = .error .notImplemented ∧
    Client.get_ad_account_delivery_estimate c = .error .notImplemented ∧
    Client.get_ad_account_generate_previews c = .error .notImplemented ∧
    Client.get_ad_account_insights c = .error .notImplemented ∧
    Client.create_ad_account_insights c = .error .notImplemented ∧
    Client.get_ad_account_instagram_accounts c = .error .notImplemented ∧
    Client.get_ad_account_minimum_budgets c = .error .notImplemented ∧
    Client.get_ad_account_offline_conversion_data_sets c = .error .notImplemented ∧
    Client.get_ad_account_offsitepixels c = .error .notImplemented ∧
    Client.create_account_ad_offsitepixels c = .error .notImplemented ∧
    Client.get_ad_account_partnercategories c = .error .notImplemented ∧
    Client.get_ad_account_partners c = .error .notImplemented ∧
    Client.get_ad_account_publisher_block_lists c = .error .notImplemented ∧
    Client.create_ad_account_publisher_block_lists c = .error .notImplemented ∧
    Client.get_ad_account_ratecard c = .error .notImplemented ∧
    Client.get_ad_account_reachestimate c = .error .notImplemented ∧
    Client.get_ad_account_reach_frequency_predictions c = .error .notImplemented ∧
    Client.create_ad_account_reach_frequency_predictions c = .error .notImplemented ∧
    Client.get_ad_account_roas c = .error .notImplemented ∧
    Client.get_ad_account_rule_execution_history c = .error .notImplemented ∧
    Client.get_ad_account_targeting_browse c = .error .notImplemented ∧
    Client.get_ad_account_targeting_search c = .error .notImplemented ∧
    Client.get_ad_account_targeting_sentence_lines c = .error .notImplemented ∧
    Client.get_ad_account_targeting_suggestions c = .error .notImplemented ∧
    Client.get_ad_account_targeting_validations c = .error .notImplemented ∧
    Client.get_ad_account_targeting_tracking c = .error .notImplemented ∧
    Client.create_ad_account_targeting_tracking c = .error .notImplemented ∧
    Client.delete_ad_account_targeting_tracking c = .error .notImplemented ∧
    Client.get_ad_account_targeting_transactions c = .error .notImplemented ∧
    Client.get_ad_account_users c = .error .notImplemented :=
  ⟨rfl, rfl, rfl, rfl, rfl, rfl, rfl, rfl, rfl, rfl, rfl, rfl, rfl, rfl, rfl, rfl, rfl, rfl, rfl, rfl, rfl, rfl, rfl, rfl, rfl, rfl, rfl, rfl, rfl, rfl, rfl, rfl, rfl, rfl, rfl, rfl, rfl, rfl, rfl, rfl, rfl, rfl, rfl, rfl, rfl, rfl, rfl, rfl, rfl, rfl, rfl, rfl, rfl, rfl, rfl, rfl, rfl, rfl, rfl, rfl, rfl, rfl, rfl, rfl, rfl, rfl, rfl, rfl, rfl, rfl, rfl, rfl, rfl, rfl, rfl, rfl, rfl, rfl, rfl, rfl, rfl, rfl, rfl⟩

/-- Helper: a JSON object with a `code` binding is truthy. -/
theorem pyTruthy_obj_of_lookup {errObj : List (String × Json)} {k : String} {v : Json}
    (h : errObj.lookup k = some v) : pyTruthy (.obj errObj) = true := by
  cases errObj with
  | nil => simp at h
  | cons a l => simp [pyTruthy]

/-- C3: for every response body whose top-level error object has a
numeric code belonging to the closed `ErrorEnum` enumeration, `_parse`
raises exactly the error kind the classification dispatch assigns to
that member, carrying the `message` value of the error object as the
detail. -/
theorem parse_known_code_raises_specific (body errObj : List (String × Json)) (code : Int)
    (m : Json) (en : ErrorEnum)
    (hb : body.lookup "error" = some (.obj errObj))
    (hc : errObj.lookup "code" = some (.num code))
    (hm : errObj.lookup "message" = some m)
    (he : ErrorEnum.ofCode code = some en) :
    Client.parse body = .error (.lib (classify en m)) := by
  have htru : pyTruthy (.obj errObj) = true := pyTruthy_obj_of_lookup hc
  unfold Client.parse locateError handleError
  simp [dictContains, hb, htru, pyGetItem, hc, hm, errorEnumOf, he]

/-- C3 witness: the body of the spec example,
`{"error": {"code": 4, "message": "limit"}}`, raises the
app-rate-limit kind with detail `"limit"`. -/
theorem parse_known_code_raises_specific_witness :
    Client.parse [("error", .obj [("code", .num 4), ("message", .str "limit")])] =
      .error (.lib (.AppRateLimitError (.str "limit"))) :=
  parse_known_code_raises_specific
    [("error", .obj [("code", .num 4), ("message", .str "limit")])]
    [("code", .num 4), ("message", .str "limit")] 4 (.str "limit") .AppRateLimit
    rfl rfl rfl rfl

/-- C4: for every response body whose top-level error object has a
numeric code outside the closed `ErrorEnum` enumeration, `_parse` raises
the generic unexpected-error kind whose detail string embeds both the
original code and the original message. -/
theorem parse_unknown_code_raises_unexpected (body errObj : List (String × Json)) (code : Int)
    (m : Json)
    (hb : body.lookup "error" = some (.obj errObj))
    (hc : errObj.lookup "code" = some (.num code))
    (hm : errObj.lookup "message" = some m)
    (he : ErrorEnum.ofCode code = none) :
    Client.parse body = .error (.lib (.UnexpectedError (formatError (.num code) m))) := by
  have htru : pyTruthy (.obj errObj) = true := pyTruthy_obj_of_lookup hc
  unfold Client.parse locateError handleError
  simp [dictContains, hb, htru, pyGetItem, hc, hm, errorEnumOf, he]

/-- C4 witness: the body of the spec example,
`{"error": {"code": 999999, "message": "x"}}`, raises the unexpected
kind preserving code `999999` and message `"x"`. -/
theorem parse_unknown_code_raises_unexpected_witness :
    Client.parse [("error", .obj [("code", .num 999999), ("message", .str "x")])] =
      .error (.lib (.UnexpectedError "Error: 999999. Message x")) :=
  parse_unknown_code_raises_unexpected
    [("error", .obj [("code", .num 999999), ("message", .str "x")])]
    [("code", .num 999999), ("message", .str "x")] 999999 (.str "x")
    rfl rfl rfl rfl

/-- C5 counterexample: the body `{"data": "server error"}` holds no
error object at either location (there is no top-level `error` key, and
`data` is a string, not an object), yet `_parse` does not return the
body: Python first finds `"error" in response["data"]` true by substring
test and then crashes subscripting the string, so the embedded parse
raises a `TypeError`. -/
theorem parse_nonobject_data_counterexample :
    List.lookup "error" [("data", Json.str "server error")] = none ∧
    Client.parse [("data", Json.str "server error")] =
      .error (.typeError "string indices must be integers") :=
  ⟨rfl, rfl⟩

/-- C5 (amended): `_parse` locates an error object at the top-level
`error` key or nested under `data`.`error`; for every decoded object
body with no top-level `error` key and whose `data` entry, when present,
does not contain `"error"` (as a dict key, list element or substring),
parsing raises nothing and returns the body unchanged.  (A non-object
`data` value containing `"error"` instead raises an uncategorized
`TypeError`.) -/
theorem parse_no_error_returns_body (body : List (String × Json))
    (h1 : body.lookup "error" = none)
    (h2 : ∀ d, body.lookup "data" = some d → pyContains d "error" = .ok false) :
    Client.parse body = .ok body := by
  unfold Client.parse locateError
  simp only [dictContains, h1, Option.isSome_none, Bool.false_eq_true, if_false]
  cases hd : body.lookup "data" with
  | none => rfl
  | some d => simp [h2 d hd]

/-- C5 witness: a body with unrelated fields and an object-valued
`data` entry without an `error` key is returned unchanged. -/
theorem parse_no_error_returns_body_witness :
    Client.parse [("installed", .bool true), ("data", .obj [("page_id", .str "42")])] =
      .ok [("installed", .bool true), ("data", .obj [("page_id", .str "42")])] :=
  parse_no_error_returns_body [("installed", .bool true), ("data", .obj [("page_id", .str "42")])]
    rfl
    (by intro d hd
        have hd' : some (Json.obj [("page_id", Json.str "42")]) = some d := hd
        obtain rfl : Json.obj [("page_id", Json.str "42")] = d := Option.some.inj hd'
        rfl)

/-- Helper for C9: the generator scan yields `None` when every entry has
an `id` differing from the requested one. -/
theorem findPage_none (page_id : String) (ps : List Json)
    (hids : ∀ p ∈ ps, ∃ v, pyGetItem p "id" = .ok v ∧ (v == Json.str page_id) = false) :
    findPage page_id ps = .ok none := by
  induction ps with
  | nil => rfl
  | cons p rest ih =>
    obtain ⟨v, hv, hne⟩ := hids p (List.mem_cons_self p rest)
    rw [findPage, hv]
    simp only [hne, Bool.false_eq_true, if_false]
    exact ih fun q hq => hids q (List.mem_cons_of_mem p hq)

/-- C9: with an access token set, `get_page_token` linearly scans the
`data` list of the fetched pages response; when the `id` of no entry equals
the requested `page_id`, it returns `None` (`.ok none`) and raises no
error. -/
theorem get_page_token_missing_id_returns_none (c : Client) (page_id : String)
    (pages : Json) (ps : List Json)
    (htok : pyTruthyOptStr c.access_token = true)
    (hdata : pyGetItem pages "data" = .ok (.arr ps))
    (hids : ∀ p ∈ ps, ∃ v, pyGetItem p "id" = .ok v ∧ (v == Json.str page_id) = false) :
    c.get_page_token page_id pages = .ok none := by
  unfold Client.get_page_token accessTokenGuard
  rw [htok, if_pos rfl, hdata]
  simp only [pyIter]
  exact findPage_none page_id ps hids

/-- C9 witness: a pages response whose entries have ids `"1"` and `"2"`
yields `None` for the requested id `"99"`. -/
theorem get_page_token_missing_id_returns_none_witness :
    Client.get_page_token ⟨"a", "s", "v5.0", some "TOK"⟩ "99"
      (.obj [("data", .arr [.obj [("id", .str "1")], .obj [("id", .str "2")]])]) =
      .ok none :=
  get_page_token_missing_id_returns_none ⟨"a", "s", "v5.0", some "TOK"⟩ "99"
    (.obj [("data", .arr [.obj [("id", .str "1")], .obj [("id", .str "2")]])])
    [.obj [("id", .str "1")], .obj [("id", .str "2")]]
    rfl rfl
    (by intro p hp
        simp only [List.mem_cons, List.not_mem_nil, or_false] at hp
        rcases hp with h | h <;> subst h <;> exact ⟨_, rfl, rfl⟩)

/-- Every character has a scalar value below 0x110000. -/
theorem char_toNat_lt (c : Char) : c.toNat < 1114112 := by
  have h : c.toNat < 55296 ∨ (57343 < c.toNat ∧ c.toNat < 1114112) := c.valid
  omega

/-- UTF-8 encoding produces bytes. -/
theorem utf8EncodeChar_lt_256 (c : Char) : ∀ b ∈ utf8EncodeChar c, b < 256 := by
  have h := char_toNat_lt c
  intro b hb
  simp only [utf8EncodeChar] at hb
  split at hb
  · simp at hb; omega
  · split at hb
    · simp at hb; rcases hb with rfl | rfl <;> omega
    · split at hb
      · simp at hb; rcases hb with rfl | rfl | rfl <;> omega
      · simp at hb; rcases hb with rfl | rfl | rfl | rfl <;> omega

/-- UTF-8 encoding of a character list produces bytes. -/
theorem utf8Encode_lt_256 (cs : List Char) : ∀ b ∈ utf8Encode cs, b < 256 := by
  induction cs with
  | nil => simp [utf8Encode]
  | cons c cs ih =>
    intro b hb
    rw [utf8Encode] at hb
    rcases List.mem_append.mp hb with h | h
    · exact utf8EncodeChar_lt_256 c b h
    · exact ih b h

/-- Unfolding of `utf8Decode` on a stream whose head step succeeds. -/
theorem utf8Decode_cons_of_step (b0 : Nat) (rest : List Nat) (n : Nat) (rest2 : List Nat)
    (h : utf8Step b0 rest = some (n, rest2)) :
    utf8Decode (b0 :: rest) = (utf8Decode rest2).map (Char.ofNat n :: ·) := by
  rw [utf8Decode]
  split
  · rename_i heq
    rw [h] at heq
    cases heq
  · rename_i p heq
    rw [h] at heq
    cases heq
    rfl

/-- Decoding inverts the UTF-8 encoding of one character at the head of
a byte stream. -/
theorem utf8Decode_encodeChar (c : Char) (rest : List Nat) :
    utf8Decode (utf8EncodeChar c ++ rest) = (utf8Decode rest).map (c :: ·) := by
  have hlt := char_toNat_lt c
  by_cases h1 : c.toNat < 128
  · have henc : utf8EncodeChar c = [c.toNat] := by simp [utf8EncodeChar, h1]
    rw [henc, List.cons_append, List.nil_append,
        utf8Decode_cons_of_step _ _ c.toNat rest (by rw [utf8Step.eq_def, if_pos h1]),
        Char.ofNat_toNat]
  · by_cases h2 : c.toNat < 2048
    · have henc : utf8EncodeChar c = [192 + c.toNat / 64, 128 + c.toNat % 64] := by
        simp [utf8EncodeChar, h1, h2]
      have hstep : utf8Step (192 + c.toNat / 64) ((128 + c.toNat % 64) :: rest) =
          some (c.toNat, rest) := by
        simp only [utf8Step]
        rw [if_neg (by omega), if_neg (by omega), if_pos (by omega)]
        rw [if_pos (by simp only [contByte, Bool.and_eq_true, decide_eq_true_eq]; omega)]
        have e : (192 + c.toNat / 64 - 192) * 64 + (128 + c.toNat % 64 - 128) = c.toNat := by
          omega
        rw [e]
      rw [henc, List.cons_append, List.cons_append, List.nil_append,
          utf8Decode_cons_of_step _ _ c.toNat rest hstep, Char.ofNat_toNat]
    · by_cases h3 : c.toNat < 65536
      · have henc : utf8EncodeChar c =
            [224 + c.toNat / 4096, 128 + c.toNat / 64 % 64, 128 + c.toNat % 64] := by
          simp [utf8EncodeChar, h1, h2, h3]
        have hstep : utf8Step (224 + c.toNat / 4096)
            ((128 + c.toNat / 64 % 64) :: (128 + c.toNat % 64) :: rest) =
            some (c.toNat, rest) := by
          simp only [utf8Step]
          rw [if_neg (by omega), if_neg (by omega), if_neg (by omega), if_pos (by omega)]
          rw [if_pos (by simp only [contByte, Bool.and_eq_true, decide_eq_true_eq]; omega)]
          have e : (224 + c.toNat / 4096 - 224) * 4096 + (128 + c.toNat / 64 % 64 - 128) * 64 +
              (128 + c.toNat % 64 - 128) = c.toNat := by omega
          rw [e]
        rw [henc, List.cons_append, List.cons_append, List.cons_append, List.nil_append,
            utf8Decode_cons_of_step _ _ c.toNat rest hstep, Char.ofNat_toNat]
      · have henc : utf8EncodeChar c =
            [240 + c.toNat / 262144, 128 + c.toNat / 4096 % 64,
             128 + c.toNat / 64 % 64, 128 + c.toNat % 64] := by
          simp [utf8EncodeChar, h1, h2, h3]
        have hstep : utf8Step (240 + c.toNat / 262144)
            ((128 + c.toNat / 4096 % 64) :: (128 + c.toNat / 64 % 64) ::
             (128 + c.toNat % 64) :: rest) = some (c.toNat, rest) := by
          simp only [utf8Step]
          rw [if_neg (by omega), if_neg (by omega), if_neg (by omega), if_neg (by omega),
              if_pos (by omega)]
          rw [if_pos (by simp only [contByte, Bool.and_eq_true, decide_eq_true_eq]; omega)]
          have e : (240 + c.toNat / 262144 - 240) * 262144 +
              (128 + c.toNat / 4096 % 64 - 128) * 4096 +
              (128 + c.toNat / 64 % 64 - 128) * 64 + (128 + c.toNat % 64 - 128) = c.toNat := by
            omega
          rw [e]
        rw [henc, List.cons_append, List.cons_append, List.cons_append, List.cons_append,
            List.nil_append, utf8Decode_cons_of_step _ _ c.toNat rest hstep, Char.ofNat_toNat]

/-- Decoding inverts the UTF-8 encoding of a character list. -/
theorem utf8Decode_utf8Encode (cs : List Char) : utf8Decode (utf8Encode cs) = some cs := by
  induction cs with
  | nil => rw [utf8Encode, utf8Decode]
  | cons c cs ih => rw [utf8Encode, utf8Decode_encodeChar, ih]; rfl

set_option maxRecDepth 8192 in
/-- Safe bytes pass through `quoteByte` as a character that is not `+`
or `%`, is ASCII, and round-trips through its code. -/
theorem safeByte_facts : ∀ b, b < 256 → isSafeByte b = true →
    ((Char.ofNat b == '+') = false ∧ (Char.ofNat b == '%') = false ∧
     (Char.ofNat b).toNat = b ∧ b < 128) := by decide

set_option maxRecDepth 8192 in
/-- The uppercase hex digits of a byte parse back to its nibbles. -/
theorem hexDigit_facts : ∀ b, b < 256 →
    (hexVal (hexDigitUpper (b / 16)) = some (b / 16) ∧
     hexVal (hexDigitUpper (b % 16)) = some (b % 16)) := by decide

set_option maxRecDepth 8192 in
/-- No character of a quoted byte is `&` or `=`. -/
theorem quoteByte_sep_free : ∀ b, b < 256 → ∀ ch ∈ quoteByte b,
    (ch == '&') = false ∧ (ch == '=') = false := by decide

/-- Unfolding of `unquotePlusBytes` on a stream whose head step
succeeds. -/
theorem unquotePlusBytes_cons_of_step (c : Char) (rest : List Char) (b : Nat)
    (rest2 : List Char) (h : unquoteStep c rest = some (b, rest2)) :
    unquotePlusBytes (c :: rest) = (unquotePlusBytes rest2).map (b :: ·) := by
  rw [unquotePlusBytes]
  split
  · rename_i heq
    rw [h] at heq
    cases heq
  · rename_i p heq
    rw [h] at heq
    cases heq
    rfl

/-- Decoding inverts `quoteByte` at the head of a character stream. -/
theorem unquote_quoteByte (b : Nat) (hb : b < 256) (rest : List Char) :
    unquotePlusBytes (quoteByte b ++ rest) = (unquotePlusBytes rest).map (b :: ·) := by
  by_cases hs : isSafeByte b = true
  · obtain ⟨h1, h2, h3, h4⟩ := safeByte_facts b hb hs
    have hstep : unquoteStep (Char.ofNat b) rest = some (b, rest) := by
      rw [unquoteStep.eq_def, if_neg (by simp [h1]), if_neg (by simp [h2]), h3, if_pos h4]
    rw [quoteByte, if_pos hs, List.cons_append, List.nil_append,
        unquotePlusBytes_cons_of_step _ _ b rest hstep]
  · by_cases h32 : b = 32
    · subst h32
      have hq : quoteByte 32 = ['+'] := rfl
      have hstep : unquoteStep '+' rest = some (32, rest) := rfl
      rw [hq, List.cons_append, List.nil_append,
          unquotePlusBytes_cons_of_step _ _ 32 rest hstep]
    · obtain ⟨hh, hl⟩ := hexDigit_facts b hb
      have hstep : unquoteStep '%' (hexDigitUpper (b / 16) :: hexDigitUpper (b % 16) :: rest) =
          some (b, rest) := by
        show (match hexVal (hexDigitUpper (b / 16)), hexVal (hexDigitUpper (b % 16)) with
              | some hv, some lv => some ((16 * hv + lv), rest)
              | _, _ => none) = some (b, rest)
        rw [hh, hl]
        show some (16 * (b / 16) + b % 16, rest) = some (b, rest)
        have e : 16 * (b / 16) + b % 16 = b := by omega
        rw [e]
      rw [quoteByte, if_neg hs, if_neg (by simp [h32]), List.cons_append, List.cons_append,
          List.cons_append, List.nil_append,
          unquotePlusBytes_cons_of_step _ _ b rest hstep]

/-- Decoding inverts byte-list quoting. -/
theorem unquote_quoteBytes (bs : List Nat) (h : ∀ b ∈ bs, b < 256) :
    unquotePlusBytes (quoteBytes bs) = some bs := by
  induction bs with
  | nil => rw [show quoteBytes [] = [] from rfl, unquotePlusBytes]
  | cons b bs ih =>
    rw [quoteBytes, unquote_quoteByte b (h b (List.mem_cons_self b bs)),
        ih fun x hx => h x (List.mem_cons_of_mem b hx)]
    rfl

/-- Lemma: `unquote_plus` inverts `quote_plus`. -/
theorem unquotePlus_quotePlusChars (s : String) : unquotePlus (quotePlusChars s) = some s := by
  rw [unquotePlus, quotePlusChars, unquote_quoteBytes _ (utf8Encode_lt_256 s.data)]
  show (utf8Decode (utf8Encode s.data)).map String.mk = some s
  rw [utf8Decode_utf8Encode]
  rfl

/-- Quoted byte lists contain no `&` or `=` separators. -/
theorem quoteBytes_sep_free (bs : List Nat) (h : ∀ b ∈ bs, b < 256) :
    ∀ ch ∈ quoteBytes bs, (ch == '&') = false ∧ (ch == '=') = false := by
  induction bs with
  | nil => simp [quoteBytes]
  | cons b bs ih =>
    intro ch hch
    rw [quoteBytes] at hch
    rcases List.mem_append.mp hch with h' | h'
    · exact quoteByte_sep_free b (h b (List.mem_cons_self b bs)) ch h'
    · exact ih (fun x hx => h x (List.mem_cons_of_mem b hx)) ch h'

/-- Quoted strings contain no `&` or `=` separators. -/
theorem quotePlusChars_sep_free (s : String) :
    ∀ ch ∈ quotePlusChars s, (ch == '&') = false ∧ (ch == '=') = false := by
  rw [quotePlusChars]
  exact quoteBytes_sep_free _ (utf8Encode_lt_256 s.data)

/-- Lemma: `splitOnChar` never returns the empty list. -/
theorem splitOnChar_ne_nil (sep : Char) (l : List Char) : splitOnChar sep l ≠ [] := by
  cases l with
  | nil => simp [splitOnChar]
  | cons c rest =>
    rw [splitOnChar]
    split <;> simp

/-- Lemma: `splitOnChar` starts a fresh chunk at a separator head. -/
theorem splitOnChar_cons_sep (sep : Char) (l : List Char) :
    splitOnChar sep (sep :: l) = [] :: splitOnChar sep l := by
  rw [splitOnChar]
  simp

/-- A separator-free prefix is prepended to the first chunk. -/
theorem splitOnChar_append_free (sep : Char) (xs : List Char)
    (hxs : ∀ ch ∈ xs, (ch == sep) = false) (l : List Char) (hd : List Char)
    (tl : List (List Char)) (h : splitOnChar sep l = hd :: tl) :
    splitOnChar sep (xs ++ l) = (xs ++ hd) :: tl := by
  induction xs with
  | nil => simpa using h
  | cons c cs ih =>
    have hc := hxs c (List.mem_cons_self c cs)
    rw [List.cons_append, splitOnChar]
    rw [ih fun ch h' => hxs ch (List.mem_cons_of_mem c h')]
    simp [hc]

/-- A separator-free list is a single chunk. -/
theorem splitOnChar_free (sep : Char) (xs : List Char)
    (h : ∀ ch ∈ xs, (ch == sep) = false) : splitOnChar sep xs = [xs] := by
  have h2 := splitOnChar_append_free sep xs h [] [] [] (by rw [splitOnChar])
  simpa using h2

/-- Splitting at the first separator recovers the two sides. -/
theorem splitFirst_append (sep : Char) (k v : List Char)
    (h : ∀ ch ∈ k, (ch == sep) = false) :
    splitFirst sep (k ++ sep :: v) = (k, v) := by
  induction k with
  | nil => simp [splitFirst]
  | cons c cs ih =>
    have hc := h c (List.mem_cons_self c cs)
    rw [List.cons_append, splitFirst]
    rw [ih fun ch h' => h ch (List.mem_cons_of_mem c h')]
    simp [hc]

/-- Decoding inverts the encoding of one `key=value` chunk. -/
theorem decodePair_chunk (a b : String) :
    decodePair (quotePlusChars a ++ '=' :: quotePlusChars b) = some (a, b) := by
  rw [decodePair,
      splitFirst_append '=' _ _ (fun ch hch => (quotePlusChars_sep_free a ch hch).2)]
  simp [unquotePlus_quotePlusChars]

/-- An encoded chunk contains no `&`. -/
theorem chunk_amp_free (a b : String) :
    ∀ ch ∈ quotePlusChars a ++ '=' :: quotePlusChars b, (ch == '&') = false := by
  intro ch hch
  rcases List.mem_append.mp hch with h' | h'
  · exact (quotePlusChars_sep_free a ch h').1
  · rcases List.mem_cons.mp h' with rfl | h''
    · rfl
    · exact (quotePlusChars_sep_free b ch h'').1

/-- Decoding inverts `urlencode` for a nonempty parameter list. -/
theorem parseQslChars_urlencodeChars (ps : List (String × String)) (h : ps ≠ []) :
    parseQslChars (urlencodeChars ps) = some ps := by
  induction ps with
  | nil => exact absurd rfl h
  | cons p ps ih =>
    cases ps with
    | nil =>
      rw [show urlencodeChars [p] = quotePlusChars p.1 ++ '=' :: quotePlusChars p.2 from rfl,
          parseQslChars, splitOnChar_free _ _ (chunk_amp_free p.1 p.2),
          decodePairs, decodePair_chunk p.1 p.2]
      rfl
    | cons q qs =>
      have hne : q :: qs ≠ [] := by simp
      have hrest := ih hne
      rw [parseQslChars] at hrest
      obtain ⟨hd, tl, hsp⟩ : ∃ hd tl, splitOnChar '&' (urlencodeChars (q :: qs)) = hd :: tl := by
        cases hsp : splitOnChar '&' (urlencodeChars (q :: qs)) with
        | nil => exact absurd hsp (splitOnChar_ne_nil _ _)
        | cons hd tl => exact ⟨hd, tl, rfl⟩
      rw [hsp] at hrest
      rw [show urlencodeChars (p :: q :: qs) =
            (quotePlusChars p.1 ++ '=' :: quotePlusChars p.2) ++
              '&' :: urlencodeChars (q :: qs) by simp [urlencodeChars],
          parseQslChars,
          splitOnChar_append_free '&' _ (chunk_amp_free p.1 p.2) _ [] (hd :: tl)
            (by rw [splitOnChar_cons_sep, hsp]),
          List.append_nil, decodePairs, decodePair_chunk p.1 p.2, hrest]
      rfl

/-- C8: `authorization_url` is a pure string construction: for every
client, redirect url and scope sequence it returns
`https://facebook.com/dialog/oauth?` followed by the urlencoded query,
and that query decodes back to exactly
`client_id = app_id`, `redirect_uri = redirect_url` and
`scope = space-joined scopes` (so in particular scopes
`["email", "pages_show_list"]` decode to `"email pages_show_list"`). -/
theorem authorization_url_spec (c : Client) (redirect_url : String) (scope : List String) :
    c.authorization_url redirect_url scope =
      "https://facebook.com/dialog/oauth?" ++
        urlencode [("client_id", c.app_id), ("redirect_uri", redirect_url),
                   ("scope", joinSpace scope)] ∧
    parseQsl (urlencode [("client_id", c.app_id), ("redirect_uri", redirect_url),
                         ("scope", joinSpace scope)]) =
      some [("client_id", c.app_id), ("redirect_uri", redirect_url),
            ("scope", joinSpace scope)] := by
  refine ⟨rfl, ?_⟩
  rw [parseQsl, urlencode]
  exact parseQslChars_urlencodeChars _ (by simp)
